import Mathlib

/-!
Shallow embedding of `src/ml/api_bridge.py` (function `main`): a process
boundary adapter that reads one JSON request from standard input, delegates
to an external `CropRecommendationML` service (load / predict / feature
importance), prints exactly one JSON response to standard output and exits
with code 0 on success and 1 on every failure path.

External effects are modelled explicitly:
  * the JSON decoding of standard input is a value `Except String Json`
    (`json.load` either returns a document or raises with a description);
  * the filesystem and the delegate object are an `Env` record holding the
    result of `os.path.exists`, of `ml.load_models`, of `ml.predict` and of
    `ml.get_feature_importance`;
  * the run result records the documents printed, the process exit code and
    the trace of delegate calls, in order.
-/

namespace ApiBridge

/-- JSON values as produced by `json.load`. Numbers are modelled as rationals. -/
inductive Json where
  | null : Json
  | bool (b : Bool) : Json
  | num (q : ℚ) : Json
  | str (s : String) : Json
  | arr (elems : List Json) : Json
  | obj (fields : List (String × Json)) : Json

/-- Python truthiness of a JSON-decoded value, as the source uses it in
`if predictions` and in the `include_importance` test. -/
def truthy : Json → Bool
  | Json.null => false
  | Json.bool b => b
  | Json.num q => q ≠ 0
  | Json.str s => s ≠ ""
  | Json.arr l => !l.isEmpty
  | Json.obj l => !l.isEmpty

/-- Python type name of a JSON-decoded value (for AttributeError texts). -/
def pyTypeName : Json → String
  | Json.null => "NoneType"
  | Json.bool _ => "bool"
  | Json.num q => if q.den = 1 then "int" else "float"
  | Json.str _ => "str"
  | Json.arr _ => "list"
  | Json.obj _ => "dict"

/-- Python exceptions distinguished by the adapter: `FileNotFoundError`
versus every other exception. `msg` is what `str(e)` yields. -/
inductive PyExc where
  | fileNotFound (msg : String) : PyExc
  | other (msg : String) : PyExc
  deriving DecidableEq, Repr

/-- The string `str(e)` of an exception. -/
def PyExc.msg : PyExc → String
  | PyExc.fileNotFound m => m
  | PyExc.other m => m

/-- Message of the `AttributeError` raised by `x.get(...)` when `x` is not a dict. -/
def noGetAttrMsg (j : Json) : String :=
  "\x27" ++ pyTypeName j ++ "\x27 object has no attribute \x27get\x27"

/-- `input_data.get(key, dflt)`: on a dict, look the key up (defaulting);
on any other value, raise `AttributeError`. -/
def dictGet (j : Json) (key : String) (dflt : Json) : Except PyExc Json :=
  match j with
  | Json.obj fields => Except.ok ((fields.lookup key).getD dflt)
  | _ => Except.error (PyExc.other (noGetAttrMsg j))

/-- Field lookup on a response document (for stating properties). -/
def Json.getField (j : Json) (key : String) : Option Json :=
  match j with
  | Json.obj fields => fields.lookup key
  | _ => none

/-- One delegate call to the external `CropRecommendationML` service. -/
inductive Call where
  | load (path : String) : Call
  | predict (features : List (String × Json)) (modelType : Json) : Call
  | importance (modelId : String) : Call

/-- The environment: filesystem state and delegate behaviour. -/
structure Env where
  scriptDir : String
  modelExists : Bool
  loadResult : Except PyExc Unit
  predictFn : List (String × Json) → Json → Except PyExc (List Json)
  importanceFn : String → Except PyExc (List (String × ℚ))

/-- The resolved model path: `os.path.join` of the script directory and the
fixed file name `crop_ml_models.pkl`. -/
def modelPath (env : Env) : String :=
  env.scriptDir ++ "/" ++ "crop_ml_models.pkl"

/-- The seven recognized feature keys, in the order the source extracts them. -/
def featureKeys : List String :=
  ["N", "P", "K", "temperature", "humidity", "ph", "rainfall"]

/-- The `features` dict built by the source: one `input_data.get(k, 0)` per key. -/
def extractFeatures (input : Json) : Except PyExc (List (String × Json)) :=
  featureKeys.mapM (fun k => (dictGet input k (Json.num 0)).map (fun v => (k, v)))

/-- Hint printed when the model file is absent. -/
def trainHint : String :=
  "Please train the models first: python ml/crop_recommendation_ml.py train"

/-- Hint printed by the `FileNotFoundError` handler. -/
def retrainHint : String := "Run: python ml/crop_recommendation_ml.py train"

/-- Fixed error string of the `FileNotFoundError` handler. -/
def notTrainedError : String :=
  "ML models not trained. Please run training script first."

/-- Response printed when `os.path.exists(model_path)` is false. -/
def missingModelDoc (env : Env) : Json :=
  Json.obj [("success", Json.bool false),
    ("error", Json.str ("ML model file not found at " ++ modelPath env)),
    ("message", Json.str trainHint)]

/-- Response printed by the `except FileNotFoundError` handler. -/
def notTrainedDoc : Json :=
  Json.obj [("success", Json.bool false),
    ("error", Json.str notTrainedError),
    ("message", Json.str retrainHint)]

/-- Response printed by the `except Exception` handler. -/
def genericErrorDoc (e : PyExc) : Json :=
  Json.obj [("success", Json.bool false), ("error", Json.str e.msg)]

/-- The two `except` clauses of `main`, as the document each one prints. -/
def handlerDoc (e : PyExc) : Json :=
  match e with
  | PyExc.fileNotFound _ => notTrainedDoc
  | PyExc.other _ => genericErrorDoc e

/-- Re-expression of the importance pairs as records with a `feature` field
`f[0]` and an `importance` field `float(f[1])`, one per pair, in order. -/
def importanceJson (pairs : List (String × ℚ)) : Json :=
  Json.arr (pairs.map (fun f => Json.obj [("feature", Json.str f.1),
    ("importance", Json.num f.2)]))

/-- The success response: `success` is true, `predictions` is the delegate
result, `top_recommendation` is `predictions[0] if predictions else None`,
and `feature_importance` is the re-expressed pairs or `None`. -/
def successDoc (predictions : List Json) (imp : Option (List (String × ℚ))) : Json :=
  Json.obj [("success", Json.bool true),
    ("predictions", Json.arr predictions),
    ("top_recommendation",
      match predictions with
      | [] => Json.null
      | p :: _ => p),
    ("feature_importance",
      match imp with
      | none => Json.null
      | some pairs => importanceJson pairs)]

/-- Outcome of the `try` block: `exited` models a `sys.exit` inside the block
(`SystemExit` is not an `Exception`, so the handlers do not catch it), `ret`
a normal fall-through, `raised` an exception reaching the handlers. Each
carries the documents printed so far. -/
inductive BodyOutcome where
  | exited (docs : List Json) (code : Nat) : BodyOutcome
  | ret (docs : List Json) : BodyOutcome
  | raised (docs : List Json) (e : PyExc) : BodyOutcome

/-- The `try` block of `main`, step by step in source order: parse stdin,
check the model file, load, build the feature dict, read `model_type`
(default `"ensemble"`), predict, optionally fetch feature importance for the
fixed id `"random_forest"`, print the success response. The second component
is the trace of delegate calls made. -/
def tryBody (env : Env) (stdin : Except String Json) : BodyOutcome × List Call :=
  match stdin with
  | Except.error desc => (BodyOutcome.raised [] (PyExc.other desc), [])
  | Except.ok input_data =>
    if env.modelExists then
      match env.loadResult with
      | Except.error e => (BodyOutcome.raised [] e, [Call.load (modelPath env)])
      | Except.ok _ =>
        match extractFeatures input_data with
        | Except.error e => (BodyOutcome.raised [] e, [Call.load (modelPath env)])
        | Except.ok features =>
          match dictGet input_data "model_type" (Json.str "ensemble") with
          | Except.error e => (BodyOutcome.raised [] e, [Call.load (modelPath env)])
          | Except.ok model_type =>
            match env.predictFn features model_type with
            | Except.error e =>
              (BodyOutcome.raised [] e,
                [Call.load (modelPath env), Call.predict features model_type])
            | Except.ok predictions =>
              match dictGet input_data "include_importance" (Json.bool false) with
              | Except.error e =>
                (BodyOutcome.raised [] e,
                  [Call.load (modelPath env), Call.predict features model_type])
              | Except.ok inc =>
                if truthy inc then
                  match env.importanceFn "random_forest" with
                  | Except.error e =>
                    (BodyOutcome.raised [] e,
                      [Call.load (modelPath env), Call.predict features model_type,
                        Call.importance "random_forest"])
                  | Except.ok pairs =>
                    (BodyOutcome.ret [successDoc predictions (some pairs)],
                      [Call.load (modelPath env), Call.predict features model_type,
                        Call.importance "random_forest"])
                else
                  (BodyOutcome.ret [successDoc predictions none],
                    [Call.load (modelPath env), Call.predict features model_type])
    else
      (BodyOutcome.exited [missingModelDoc env] 1, [])

/-- Observable result of one process invocation: documents printed to
standard output, process exit code, delegate calls made. -/
structure RunResult where
  output : List Json
  exitCode : Nat
  calls : List Call

/-- The whole of `main`: run the `try` block, then apply the two `except`
clauses (each prints its document and exits 1); a normal return exits 0. -/
def run (env : Env) (stdin : Except String Json) : RunResult :=
  match tryBody env stdin with
  | (BodyOutcome.exited docs code, calls) => ⟨docs, code, calls⟩
  | (BodyOutcome.ret docs, calls) => ⟨docs, 0, calls⟩
  | (BodyOutcome.raised docs e, calls) => ⟨docs ++ [handlerDoc e], 1, calls⟩

/-- The features dict the source builds from a request object `kvs`. -/
def featuresOf (kvs : List (String × Json)) : List (String × Json) :=
  featureKeys.map (fun k => (k, (kvs.lookup k).getD (Json.num 0)))

/-- The `model_type` value the source passes to predict. -/
def modelTypeOf (kvs : List (String × Json)) : Json :=
  (kvs.lookup "model_type").getD (Json.str "ensemble")

/-- The `include_importance` value the source tests for truthiness. -/
def includeImportanceOf (kvs : List (String × Json)) : Json :=
  (kvs.lookup "include_importance").getD (Json.bool false)

/-- A concrete healthy environment: model file present, load succeeds, the
predict delegate returns a one-element prediction list, the importance
delegate returns an empty list of pairs. -/
def envOk : Env :=
  ⟨"/srv/app/ml", true, Except.ok (),
    fun _ _ => Except.ok [Json.str "rice"], fun _ => Except.ok []⟩

/-- A concrete environment whose model artifact file is absent. -/
def envNoModel : Env :=
  ⟨"/srv/app/ml", false, Except.ok (),
    fun _ _ => Except.ok [Json.str "rice"], fun _ => Except.ok []⟩

/-- A concrete environment where the model file exists but the load delegate
raises `FileNotFoundError` anyway (the defensive duplicate path). -/
def envFNF : Env :=
  ⟨"/srv/app/ml", true,
    Except.error (PyExc.fileNotFound "[Errno 2] No such file or directory"),
    fun _ _ => Except.ok [Json.str "rice"], fun _ => Except.ok []⟩

/-- A concrete request asking for feature importance with a non-default
`model_type`. -/
def reqImp : Json :=
  Json.obj [("model_type", Json.str "naive_bayes"), ("include_importance", Json.bool true)]

end ApiBridge

namespace ApiBridge

/-! ### Computation lemmas: how each step of the source reduces -/

lemma dictGet_obj (kvs : List (String × Json)) (k : String) (d : Json) :
    dictGet (Json.obj kvs) k d = Except.ok ((kvs.lookup k).getD d) := rfl

lemma dictGet_model_type (kvs : List (String × Json)) :
    dictGet (Json.obj kvs) "model_type" (Json.str "ensemble") =
      Except.ok (modelTypeOf kvs) := rfl

lemma dictGet_include (kvs : List (String × Json)) :
    dictGet (Json.obj kvs) "include_importance" (Json.bool false) =
      Except.ok (includeImportanceOf kvs) := rfl

lemma extractFeatures_obj (kvs : List (String × Json)) :
    extractFeatures (Json.obj kvs) = Except.ok (featuresOf kvs) := rfl

lemma extractFeatures_nonobj (j : Json) (hobj : ∀ kvs, j ≠ Json.obj kvs) :
    extractFeatures j = Except.error (PyExc.other (noGetAttrMsg j)) := by
  cases j with
  | obj kvs => exact absurd rfl (hobj kvs)
  | _ => rfl

/-! ### Fields of each response document -/

lemma missingModelDoc_success (env : Env) :
    (missingModelDoc env).getField "success" = some (Json.bool false) := rfl

lemma missingModelDoc_error (env : Env) :
    (missingModelDoc env).getField "error" =
      some (Json.str ("ML model file not found at " ++ modelPath env)) := rfl

lemma missingModelDoc_message (env : Env) :
    (missingModelDoc env).getField "message" = some (Json.str trainHint) := rfl

lemma genericErrorDoc_success (e : PyExc) :
    (genericErrorDoc e).getField "success" = some (Json.bool false) := rfl

lemma genericErrorDoc_error (e : PyExc) :
    (genericErrorDoc e).getField "error" = some (Json.str e.msg) := rfl

lemma genericErrorDoc_message (e : PyExc) :
    (genericErrorDoc e).getField "message" = none := rfl

lemma handlerDoc_success (e : PyExc) :
    (handlerDoc e).getField "success" = some (Json.bool false) := by
  cases e <;> rfl

lemma handlerDoc_error (e : PyExc) :
    ∃ s, (handlerDoc e).getField "error" = some (Json.str s) := by
  cases e with
  | fileNotFound m => exact ⟨notTrainedError, rfl⟩
  | other m => exact ⟨m, rfl⟩

lemma successDoc_success (preds : List Json) (imp : Option (List (String × ℚ))) :
    (successDoc preds imp).getField "success" = some (Json.bool true) := rfl

lemma successDoc_predictions (preds : List Json) (imp : Option (List (String × ℚ))) :
    (successDoc preds imp).getField "predictions" = some (Json.arr preds) := rfl

lemma successDoc_top (preds : List Json) (imp : Option (List (String × ℚ))) :
    (successDoc preds imp).getField "top_recommendation" =
      some (match preds with
            | [] => Json.null
            | p :: _ => p) := rfl

lemma successDoc_importance (preds : List Json) (imp : Option (List (String × ℚ))) :
    (successDoc preds imp).getField "feature_importance" =
      some (match imp with
            | none => Json.null
            | some pairs => importanceJson pairs) := rfl

/-! ### One equation per terminal branch of `run` -/

lemma run_parse_error (env : Env) (desc : String) :
    run env (Except.error desc) = ⟨[genericErrorDoc (PyExc.other desc)], 1, []⟩ := rfl

lemma run_missing (env : Env) (j : Json) (hm : env.modelExists = false) :
    run env (Except.ok j) = ⟨[missingModelDoc env], 1, []⟩ := by
  simp [run, tryBody, hm]

lemma run_load_error (env : Env) (j : Json) (e : PyExc)
    (hm : env.modelExists = true) (hl : env.loadResult = Except.error e) :
    run env (Except.ok j) = ⟨[handlerDoc e], 1, [Call.load (modelPath env)]⟩ := by
  simp [run, tryBody, hm, hl]

lemma run_nonobj (env : Env) (j : Json)
    (hm : env.modelExists = true) (hl : env.loadResult = Except.ok ())
    (hobj : ∀ kvs, j ≠ Json.obj kvs) :
    run env (Except.ok j) =
      ⟨[genericErrorDoc (PyExc.other (noGetAttrMsg j))], 1, [Call.load (modelPath env)]⟩ := by
  simp [run, tryBody, hm, hl, extractFeatures_nonobj j hobj, handlerDoc]

lemma run_predict_error (env : Env) (kvs : List (String × Json)) (e : PyExc)
    (hm : env.modelExists = true) (hl : env.loadResult = Except.ok ())
    (hp : env.predictFn (featuresOf kvs) (modelTypeOf kvs) = Except.error e) :
    run env (Except.ok (Json.obj kvs)) =
      ⟨[handlerDoc e], 1,
        [Call.load (modelPath env), Call.predict (featuresOf kvs) (modelTypeOf kvs)]⟩ := by
  simp [run, tryBody, hm, hl, extractFeatures_obj, dictGet_model_type, hp]

lemma run_success_no_imp (env : Env) (kvs : List (String × Json)) (preds : List Json)
    (hm : env.modelExists = true) (hl : env.loadResult = Except.ok ())
    (hp : env.predictFn (featuresOf kvs) (modelTypeOf kvs) = Except.ok preds)
    (hti : truthy (includeImportanceOf kvs) = false) :
    run env (Except.ok (Json.obj kvs)) =
      ⟨[successDoc preds none], 0,
        [Call.load (modelPath env), Call.predict (featuresOf kvs) (modelTypeOf kvs)]⟩ := by
  simp [run, tryBody, hm, hl, extractFeatures_obj, dictGet_model_type, dictGet_include, hp, hti]

lemma run_importance_error (env : Env) (kvs : List (String × Json)) (preds : List Json)
    (e : PyExc)
    (hm : env.modelExists = true) (hl : env.loadResult = Except.ok ())
    (hp : env.predictFn (featuresOf kvs) (modelTypeOf kvs) = Except.ok preds)
    (hti : truthy (includeImportanceOf kvs) = true)
    (hi : env.importanceFn "random_forest" = Except.error e) :
    run env (Except.ok (Json.obj kvs)) =
      ⟨[handlerDoc e], 1,
        [Call.load (modelPath env), Call.predict (featuresOf kvs) (modelTypeOf kvs),
          Call.importance "random_forest"]⟩ := by
  simp [run, tryBody, hm, hl, extractFeatures_obj, dictGet_model_type, dictGet_include,
    hp, hti, hi]

lemma run_success_imp (env : Env) (kvs : List (String × Json)) (preds : List Json)
    (pairs : List (String × ℚ))
    (hm : env.modelExists = true) (hl : env.loadResult = Except.ok ())
    (hp : env.predictFn (featuresOf kvs) (modelTypeOf kvs) = Except.ok preds)
    (hti : truthy (includeImportanceOf kvs) = true)
    (hi : env.importanceFn "random_forest" = Except.ok pairs) :
    run env (Except.ok (Json.obj kvs)) =
      ⟨[successDoc preds (some pairs)], 0,
        [Call.load (modelPath env), Call.predict (featuresOf kvs) (modelTypeOf kvs),
          Call.importance "random_forest"]⟩ := by
  simp [run, tryBody, hm, hl, extractFeatures_obj, dictGet_model_type, dictGet_include,
    hp, hti, hi]

end ApiBridge

namespace ApiBridge

/-- Exhaustive case analysis of one invocation: every run is one of the
eight terminal branches of the source (parse failure, missing model file,
load failure, non-dict input, predict failure, success without importance,
importance failure, success with importance). -/
lemma run_spec (env : Env) (stdin : Except String Json) :
    (∃ desc, stdin = Except.error desc ∧
      run env stdin = ⟨[genericErrorDoc (PyExc.other desc)], 1, []⟩) ∨
    (∃ j, stdin = Except.ok j ∧ env.modelExists = false ∧
      run env stdin = ⟨[missingModelDoc env], 1, []⟩) ∨
    (∃ j e, stdin = Except.ok j ∧ env.modelExists = true ∧
      env.loadResult = Except.error e ∧
      run env stdin = ⟨[handlerDoc e], 1, [Call.load (modelPath env)]⟩) ∨
    (∃ j, stdin = Except.ok j ∧ env.modelExists = true ∧
      env.loadResult = Except.ok () ∧ (∀ kvs, j ≠ Json.obj kvs) ∧
      run env stdin =
        ⟨[genericErrorDoc (PyExc.other (noGetAttrMsg j))], 1, [Call.load (modelPath env)]⟩) ∨
    (∃ kvs e, stdin = Except.ok (Json.obj kvs) ∧ env.modelExists = true ∧
      env.loadResult = Except.ok () ∧
      env.predictFn (featuresOf kvs) (modelTypeOf kvs) = Except.error e ∧
      run env stdin = ⟨[handlerDoc e], 1,
        [Call.load (modelPath env), Call.predict (featuresOf kvs) (modelTypeOf kvs)]⟩) ∨
    (∃ kvs preds, stdin = Except.ok (Json.obj kvs) ∧ env.modelExists = true ∧
      env.loadResult = Except.ok () ∧
      env.predictFn (featuresOf kvs) (modelTypeOf kvs) = Except.ok preds ∧
      truthy (includeImportanceOf kvs) = false ∧
      run env stdin = ⟨[successDoc preds none], 0,
        [Call.load (modelPath env), Call.predict (featuresOf kvs) (modelTypeOf kvs)]⟩) ∨
    (∃ kvs preds e, stdin = Except.ok (Json.obj kvs) ∧ env.modelExists = true ∧
      env.loadResult = Except.ok () ∧
      env.predictFn (featuresOf kvs) (modelTypeOf kvs) = Except.ok preds ∧
      truthy (includeImportanceOf kvs) = true ∧
      env.importanceFn "random_forest" = Except.error e ∧
      run env stdin = ⟨[handlerDoc e], 1,
        [Call.load (modelPath env), Call.predict (featuresOf kvs) (modelTypeOf kvs),
          Call.importance "random_forest"]⟩) ∨
    (∃ kvs preds pairs, stdin = Except.ok (Json.obj kvs) ∧ env.modelExists = true ∧
      env.loadResult = Except.ok () ∧
      env.predictFn (featuresOf kvs) (modelTypeOf kvs) = Except.ok preds ∧
      truthy (includeImportanceOf kvs) = true ∧
      env.importanceFn "random_forest" = Except.ok pairs ∧
      run env stdin = ⟨[successDoc preds (some pairs)], 0,
        [Call.load (modelPath env), Call.predict (featuresOf kvs) (modelTypeOf kvs),
          Call.importance "random_forest"]⟩) := by
  rcases stdin with desc | j
  · exact Or.inl ⟨desc, rfl, run_parse_error env desc⟩
  · cases hm : env.modelExists with
    | false => exact Or.inr (Or.inl ⟨j, rfl, rfl, run_missing env j hm⟩)
    | true =>
      rcases hl : env.loadResult with e | u
      · exact Or.inr (Or.inr (Or.inl ⟨j, e, rfl, rfl, rfl, run_load_error env j e hm hl⟩))
      · cases u
        by_cases hobj : ∃ kvs, j = Json.obj kvs
        · obtain ⟨kvs, rfl⟩ := hobj
          rcases hp : env.predictFn (featuresOf kvs) (modelTypeOf kvs) with e | preds
          · exact Or.inr (Or.inr (Or.inr (Or.inr (Or.inl
              ⟨kvs, e, rfl, rfl, rfl, hp, run_predict_error env kvs e hm hl hp⟩))))
          · cases hti : truthy (includeImportanceOf kvs) with
            | false =>
              exact Or.inr (Or.inr (Or.inr (Or.inr (Or.inr (Or.inl
                ⟨kvs, preds, rfl, rfl, rfl, hp, hti,
                  run_success_no_imp env kvs preds hm hl hp hti⟩)))))
            | true =>
              rcases hi : env.importanceFn "random_forest" with e | pairs
              · exact Or.inr (Or.inr (Or.inr (Or.inr (Or.inr (Or.inr (Or.inl
                  ⟨kvs, preds, e, rfl, rfl, rfl, hp, hti, rfl,
                    run_importance_error env kvs preds e hm hl hp hti hi⟩))))))
              · exact Or.inr (Or.inr (Or.inr (Or.inr (Or.inr (Or.inr (Or.inr
                  ⟨kvs, preds, pairs, rfl, rfl, rfl, hp, hti, rfl,
                    run_success_imp env kvs preds pairs hm hl hp hti hi⟩))))))
        · push_neg at hobj
          exact Or.inr (Or.inr (Or.inr (Or.inl
            ⟨j, rfl, rfl, rfl, fun kvs h => hobj kvs h, run_nonobj env j hm hl hobj⟩)))

/-- Every document printed with `success = true` is a success response for a
dict request: it is `successDoc preds imp` where `imp` is populated exactly
when the `include_importance` value of the request is truthy. -/
lemma mem_output_success (env : Env) (stdin : Except String Json) (doc : Json)
    (hmem : doc ∈ (run env stdin).output)
    (hsucc : doc.getField "success" = some (Json.bool true)) :
    ∃ kvs preds imp, stdin = Except.ok (Json.obj kvs) ∧ doc = successDoc preds imp ∧
      ((imp = none ∧ truthy (includeImportanceOf kvs) = false) ∨
        (∃ pairs, imp = some pairs ∧ truthy (includeImportanceOf kvs) = true)) := by
  rcases run_spec env stdin with
      ⟨desc, hs, hr⟩ | ⟨j, hs, hm, hr⟩ | ⟨j, e, hs, hm, hl, hr⟩ | ⟨j, hs, hm, hl, hobj, hr⟩ |
      ⟨kvs, e, hs, hm, hl, hp, hr⟩ | ⟨kvs, preds, hs, hm, hl, hp, hti, hr⟩ |
      ⟨kvs, preds, e, hs, hm, hl, hp, hti, hi, hr⟩ |
      ⟨kvs, preds, pairs, hs, hm, hl, hp, hti, hi, hr⟩
  · rw [hr] at hmem
    simp only [List.mem_singleton] at hmem
    rw [hmem, genericErrorDoc_success] at hsucc
    exact absurd hsucc (by simp)
  · rw [hr] at hmem
    simp only [List.mem_singleton] at hmem
    rw [hmem, missingModelDoc_success] at hsucc
    exact absurd hsucc (by simp)
  · rw [hr] at hmem
    simp only [List.mem_singleton] at hmem
    rw [hmem, handlerDoc_success] at hsucc
    exact absurd hsucc (by simp)
  · rw [hr] at hmem
    simp only [List.mem_singleton] at hmem
    rw [hmem, genericErrorDoc_success] at hsucc
    exact absurd hsucc (by simp)
  · rw [hr] at hmem
    simp only [List.mem_singleton] at hmem
    rw [hmem, handlerDoc_success] at hsucc
    exact absurd hsucc (by simp)
  · rw [hr] at hmem
    simp only [List.mem_singleton] at hmem
    exact ⟨kvs, preds, none, hs, hmem, Or.inl ⟨rfl, hti⟩⟩
  · rw [hr] at hmem
    simp only [List.mem_singleton] at hmem
    rw [hmem, handlerDoc_success] at hsucc
    exact absurd hsucc (by simp)
  · rw [hr] at hmem
    simp only [List.mem_singleton] at hmem
    exact ⟨kvs, preds, some pairs, hs, hmem, Or.inr ⟨pairs, rfl, hti⟩⟩

end ApiBridge

namespace ApiBridge

/-- Claim C1: when the model artifact path does not exist, the response is
exactly the missing-model document, whose `success` is `false`, whose `error`
field contains the resolved path and whose `message` field is the training
hint; the exit code is 1; and no load and no predict delegate call occurs. -/
theorem model_file_missing_short_circuits (env : Env) (j : Json)
    (hm : env.modelExists = false) :
    run env (Except.ok j) = ⟨[missingModelDoc env], 1, []⟩ ∧
    (missingModelDoc env).getField "success" = some (Json.bool false) ∧
    (missingModelDoc env).getField "error" =
      some (Json.str ("ML model file not found at " ++ modelPath env)) ∧
    (missingModelDoc env).getField "message" = some (Json.str trainHint) ∧
    (∀ p, Call.load p ∉ (run env (Except.ok j)).calls) ∧
    (∀ fs mt, Call.predict fs mt ∉ (run env (Except.ok j)).calls) := by
  refine ⟨run_missing env j hm, rfl, rfl, rfl, ?_, ?_⟩
  · intro p
    rw [run_missing env j hm]
    simp
  · intro fs mt
    rw [run_missing env j hm]
    simp

/-- Witness for C1 at the concrete environment without a model file. -/
theorem model_file_missing_short_circuits_witness :
    envNoModel.modelExists = false ∧
    run envNoModel (Except.ok (Json.obj [])) = ⟨[missingModelDoc envNoModel], 1, []⟩ :=
  ⟨rfl, (model_file_missing_short_circuits envNoModel (Json.obj []) rfl).1⟩

/-- Claim C2: in every success response, `top_recommendation` is the first
element of `predictions` when that list is non-empty, and `null` when it is
empty. -/
theorem top_recommendation_matches_head (env : Env) (stdin : Except String Json)
    (doc : Json) (hmem : doc ∈ (run env stdin).output)
    (hsucc : doc.getField "success" = some (Json.bool true)) :
    ∃ preds, doc.getField "predictions" = some (Json.arr preds) ∧
      (preds = [] → doc.getField "top_recommendation" = some Json.null) ∧
      (∀ p rest, preds = p :: rest → doc.getField "top_recommendation" = some p) := by
  obtain ⟨kvs, preds, imp, hs, hdoc, _⟩ := mem_output_success env stdin doc hmem hsucc
  subst hdoc
  refine ⟨preds, successDoc_predictions preds imp, ?_, ?_⟩
  · intro h
    subst h
    exact successDoc_top [] imp
  · intro p rest h
    subst h
    exact successDoc_top (p :: rest) imp

/-- Witness for C2: healthy environment, empty request, one prediction. -/
theorem top_recommendation_matches_head_witness :
    successDoc [Json.str "rice"] none ∈ (run envOk (Except.ok (Json.obj []))).output ∧
    (successDoc [Json.str "rice"] none).getField "success" = some (Json.bool true) ∧
    ∃ preds,
      (successDoc [Json.str "rice"] none).getField "predictions" =
        some (Json.arr preds) ∧
      (preds = [] →
        (successDoc [Json.str "rice"] none).getField "top_recommendation" =
          some Json.null) ∧
      (∀ p rest, preds = p :: rest →
        (successDoc [Json.str "rice"] none).getField "top_recommendation" = some p) := by
  have hmem : successDoc [Json.str "rice"] none ∈
      (run envOk (Except.ok (Json.obj []))).output := by
    have h : (run envOk (Except.ok (Json.obj []))).output =
        [successDoc [Json.str "rice"] none] := rfl
    rw [h]
    exact List.mem_singleton.mpr rfl
  exact ⟨hmem, rfl,
    top_recommendation_matches_head envOk (Except.ok (Json.obj []))
      (successDoc [Json.str "rice"] none) hmem rfl⟩

/-- Claim C6: when standard input is not valid JSON, the run prints exactly
the generic error document, carrying `success = false` and an `error` field
with the textual description, no `message` field, and exits with code 1. -/
theorem malformed_json_generic_error (env : Env) (desc : String) :
    run env (Except.error desc) = ⟨[genericErrorDoc (PyExc.other desc)], 1, []⟩ ∧
    (genericErrorDoc (PyExc.other desc)).getField "success" = some (Json.bool false) ∧
    (genericErrorDoc (PyExc.other desc)).getField "error" = some (Json.str desc) ∧
    (genericErrorDoc (PyExc.other desc)).getField "message" = none :=
  ⟨rfl, rfl, rfl, rfl⟩

/-- Claim C7: when the load delegate raises `FileNotFoundError` despite the
proactive existence check, the run prints exactly the not-trained document,
whose `error` is the fixed untrained-models string and whose `message` is the
retraining hint, and exits with code 1. -/
theorem load_file_not_found_retraining_hint (env : Env) (j : Json) (m : String)
    (hm : env.modelExists = true)
    (hl : env.loadResult = Except.error (PyExc.fileNotFound m)) :
    run env (Except.ok j) = ⟨[notTrainedDoc], 1, [Call.load (modelPath env)]⟩ ∧
    notTrainedDoc.getField "success" = some (Json.bool false) ∧
    notTrainedDoc.getField "error" = some (Json.str notTrainedError) ∧
    notTrainedDoc.getField "message" = some (Json.str retrainHint) :=
  ⟨run_load_error env j (PyExc.fileNotFound m) hm hl, rfl, rfl, rfl⟩

/-- Witness for C7 at the concrete defensive-path environment. -/
theorem load_file_not_found_retraining_hint_witness :
    envFNF.modelExists = true ∧
    envFNF.loadResult =
      Except.error (PyExc.fileNotFound "[Errno 2] No such file or directory") ∧
    run envFNF (Except.ok (Json.obj [])) =
      ⟨[notTrainedDoc], 1, [Call.load (modelPath envFNF)]⟩ :=
  ⟨rfl, rfl,
    (load_file_not_found_retraining_hint envFNF (Json.obj [])
      "[Errno 2] No such file or directory" rfl rfl).1⟩

/-- Claim C8: every invocation, on every input and every environment, writes
exactly one JSON document to standard output. -/
theorem single_output_document (env : Env) (stdin : Except String Json) :
    (run env stdin).output.length = 1 := by
  rcases run_spec env stdin with
      ⟨desc, hs, hr⟩ | ⟨j, hs, hm, hr⟩ | ⟨j, e, hs, hm, hl, hr⟩ | ⟨j, hs, hm, hl, hobj, hr⟩ |
      ⟨kvs, e, hs, hm, hl, hp, hr⟩ | ⟨kvs, preds, hs, hm, hl, hp, hti, hr⟩ |
      ⟨kvs, preds, e, hs, hm, hl, hp, hti, hi, hr⟩ |
      ⟨kvs, preds, pairs, hs, hm, hl, hp, hti, hi, hr⟩ <;>
    · rw [hr]
      rfl

end ApiBridge

namespace ApiBridge

/-- Claim C9: the exit code is 0 exactly when a `success = true` response was
emitted, and the exit code is always 0 or 1. -/
theorem exit_zero_iff_success (env : Env) (stdin : Except String Json) :
    ((run env stdin).exitCode = 0 ↔
      ∃ doc ∈ (run env stdin).output, doc.getField "success" = some (Json.bool true)) ∧
    ((run env stdin).exitCode = 0 ∨ (run env stdin).exitCode = 1) := by
  rcases run_spec env stdin with
      ⟨desc, hs, hr⟩ | ⟨j, hs, hm, hr⟩ | ⟨j, e, hs, hm, hl, hr⟩ | ⟨j, hs, hm, hl, hobj, hr⟩ |
      ⟨kvs, e, hs, hm, hl, hp, hr⟩ | ⟨kvs, preds, hs, hm, hl, hp, hti, hr⟩ |
      ⟨kvs, preds, e, hs, hm, hl, hp, hti, hi, hr⟩ |
      ⟨kvs, preds, pairs, hs, hm, hl, hp, hti, hi, hr⟩
  · have ho : (run env stdin).output = [genericErrorDoc (PyExc.other desc)] := by rw [hr]
    have he : (run env stdin).exitCode = 1 := by rw [hr]
    rw [ho, he]
    simp [genericErrorDoc_success]
  · have ho : (run env stdin).output = [missingModelDoc env] := by rw [hr]
    have he : (run env stdin).exitCode = 1 := by rw [hr]
    rw [ho, he]
    simp [missingModelDoc_success]
  · have ho : (run env stdin).output = [handlerDoc e] := by rw [hr]
    have he : (run env stdin).exitCode = 1 := by rw [hr]
    rw [ho, he]
    simp [handlerDoc_success]
  · have ho : (run env stdin).output = [genericErrorDoc (PyExc.other (noGetAttrMsg j))] := by
      rw [hr]
    have he : (run env stdin).exitCode = 1 := by rw [hr]
    rw [ho, he]
    simp [genericErrorDoc_success]
  · have ho : (run env stdin).output = [handlerDoc e] := by rw [hr]
    have he : (run env stdin).exitCode = 1 := by rw [hr]
    rw [ho, he]
    simp [handlerDoc_success]
  · have ho : (run env stdin).output = [successDoc preds none] := by rw [hr]
    have he : (run env stdin).exitCode = 0 := by rw [hr]
    rw [ho, he]
    simp [successDoc_success]
  · have ho : (run env stdin).output = [handlerDoc e] := by rw [hr]
    have he : (run env stdin).exitCode = 1 := by rw [hr]
    rw [ho, he]
    simp [handlerDoc_success]
  · have ho : (run env stdin).output = [successDoc preds (some pairs)] := by rw [hr]
    have he : (run env stdin).exitCode = 0 := by rw [hr]
    rw [ho, he]
    simp [successDoc_success]

/-- Claim C10: a valid-JSON input whose top level is not an object never
crashes the adapter and never produces a success response: the exit code is
1, every printed document has `success = false` and an `error` field, and
when the model file exists and the load delegate succeeds the printed
document is the generic-handler one for the failed field extraction. -/
theorem nonobject_input_errors (env : Env) (j : Json)
    (hobj : ∀ kvs, j ≠ Json.obj kvs) :
    (run env (Except.ok j)).exitCode = 1 ∧
    (∀ doc ∈ (run env (Except.ok j)).output,
      doc.getField "success" = some (Json.bool false) ∧
      ∃ s, doc.getField "error" = some (Json.str s)) ∧
    (env.modelExists = true → env.loadResult = Except.ok () →
      (run env (Except.ok j)).output =
        [genericErrorDoc (PyExc.other (noGetAttrMsg j))]) := by
  cases hm : env.modelExists with
  | false =>
    have hr := run_missing env j hm
    refine ⟨by rw [hr], ?_, ?_⟩
    · intro doc hdoc
      have ho : (run env (Except.ok j)).output = [missingModelDoc env] := by rw [hr]
      rw [ho] at hdoc
      simp only [List.mem_singleton] at hdoc
      subst hdoc
      exact ⟨missingModelDoc_success env, ⟨_, missingModelDoc_error env⟩⟩
    · intro h1 _
      exact absurd h1 (by simp)
  | true =>
    rcases hl : env.loadResult with e | u
    · have hr := run_load_error env j e hm hl
      refine ⟨by rw [hr], ?_, ?_⟩
      · intro doc hdoc
        have ho : (run env (Except.ok j)).output = [handlerDoc e] := by rw [hr]
        rw [ho] at hdoc
        simp only [List.mem_singleton] at hdoc
        subst hdoc
        exact ⟨handlerDoc_success e, handlerDoc_error e⟩
      · intro _ h2
        exact absurd h2 (by simp)
    · cases u
      have hr := run_nonobj env j hm hl hobj
      refine ⟨by rw [hr], ?_, fun _ _ => by rw [hr]⟩
      intro doc hdoc
      have ho : (run env (Except.ok j)).output =
          [genericErrorDoc (PyExc.other (noGetAttrMsg j))] := by rw [hr]
      rw [ho] at hdoc
      simp only [List.mem_singleton] at hdoc
      subst hdoc
      exact ⟨genericErrorDoc_success _, ⟨_, genericErrorDoc_error _⟩⟩

/-- Witness for C10 at the concrete list input `[]`. -/
theorem nonobject_input_errors_witness :
    (∀ kvs, Json.arr [] ≠ Json.obj kvs) ∧
    (run envOk (Except.ok (Json.arr []))).exitCode = 1 := by
  have hobj : ∀ kvs, Json.arr [] ≠ Json.obj kvs := fun kvs h => Json.noConfusion h
  exact ⟨hobj, (nonobject_input_errors envOk (Json.arr []) hobj).1⟩

/-- Claim C5: every invocation of the feature-importance delegate uses the
fixed sub-model identifier `"random_forest"`, whatever the request held. -/
theorem importance_fixed_random_forest (env : Env) (stdin : Except String Json)
    (s : String) (hmem : Call.importance s ∈ (run env stdin).calls) :
    s = "random_forest" := by
  rcases run_spec env stdin with
      ⟨desc, hs, hr⟩ | ⟨j, hs, hm, hr⟩ | ⟨j, e, hs, hm, hl, hr⟩ | ⟨j, hs, hm, hl, hobj, hr⟩ |
      ⟨kvs, e, hs, hm, hl, hp, hr⟩ | ⟨kvs, preds, hs, hm, hl, hp, hti, hr⟩ |
      ⟨kvs, preds, e, hs, hm, hl, hp, hti, hi, hr⟩ |
      ⟨kvs, preds, pairs, hs, hm, hl, hp, hti, hi, hr⟩ <;>
    · have hc := congrArg RunResult.calls hr
      rw [hc] at hmem
      simp at hmem
      try exact hmem

/-- Witness for C5: a request with a non-default `model_type` that asks for
importance still queries the `"random_forest"` sub-model. -/
theorem importance_fixed_random_forest_witness :
    Call.importance "random_forest" ∈ (run envOk (Except.ok reqImp)).calls ∧
    "random_forest" = "random_forest" := by
  have hmem : Call.importance "random_forest" ∈ (run envOk (Except.ok reqImp)).calls := by
    have hc : (run envOk (Except.ok reqImp)).calls =
        [Call.load (modelPath envOk),
          Call.predict
            (featuresOf [("model_type", Json.str "naive_bayes"),
              ("include_importance", Json.bool true)])
            (Json.str "naive_bayes"),
          Call.importance "random_forest"] := rfl
    rw [hc]
    simp
  exact ⟨hmem, importance_fixed_random_forest envOk (Except.ok reqImp) "random_forest" hmem⟩

end ApiBridge

namespace ApiBridge

/-- Counterexample to claim C3 as stated: with the model present and loading,
the request with `N` bound to the string `"abc"` (a wrong-shape value)
forwards `"abc"` itself to the predict delegate, not 0. -/
theorem present_nonnumber_feature_forwarded_unchanged :
    Call.predict
        [("N", Json.str "abc"), ("P", Json.num 0), ("K", Json.num 0),
          ("temperature", Json.num 0), ("humidity", Json.num 0), ("ph", Json.num 0),
          ("rainfall", Json.num 0)] (Json.str "ensemble")
      ∈ (run envOk (Except.ok (Json.obj [("N", Json.str "abc")]))).calls ∧
    (∀ fs mt, Call.predict fs mt
        ∈ (run envOk (Except.ok (Json.obj [("N", Json.str "abc")]))).calls →
      fs.lookup "N" = some (Json.str "abc")) ∧
    Json.str "abc" ≠ Json.num 0 := by
  have hc : (run envOk (Except.ok (Json.obj [("N", Json.str "abc")]))).calls =
      [Call.load (modelPath envOk),
        Call.predict
          [("N", Json.str "abc"), ("P", Json.num 0), ("K", Json.num 0),
            ("temperature", Json.num 0), ("humidity", Json.num 0), ("ph", Json.num 0),
            ("rainfall", Json.num 0)] (Json.str "ensemble")] := rfl
  refine ⟨?_, ?_, fun h => Json.noConfusion h⟩
  · rw [hc]
    simp
  · intro fs mt h
    rw [hc] at h
    simp at h
    rw [h.1]
    rfl

/-- Claim C3 amended: each of the seven feature fields is forwarded to the
predict delegate as 0 only when the key is absent from the request; a present
value is forwarded unchanged whatever its shape; and the empty request is
treated as all-zero features, raising no error. -/
theorem features_default_zero_only_when_absent :
    (∀ (env : Env) (kvs fs : List (String × Json)) (mt : Json),
      Call.predict fs mt ∈ (run env (Except.ok (Json.obj kvs))).calls →
      fs = featuresOf kvs) ∧
    (∀ k, k ∈ featureKeys → ∀ kvs : List (String × Json),
      (featuresOf kvs).lookup k = some ((kvs.lookup k).getD (Json.num 0))) ∧
    extractFeatures (Json.obj []) =
      Except.ok (featureKeys.map (fun k => (k, Json.num 0))) := by
  refine ⟨?_, ?_, rfl⟩
  · intro env kvs fs mt hmem
    cases hm : env.modelExists with
    | false =>
      have hc := congrArg RunResult.calls (run_missing env (Json.obj kvs) hm)
      rw [hc] at hmem
      simp at hmem
    | true =>
      rcases hl : env.loadResult with e | u
      · have hc := congrArg RunResult.calls (run_load_error env (Json.obj kvs) e hm hl)
        rw [hc] at hmem
        simp at hmem
      · cases u
        rcases hp : env.predictFn (featuresOf kvs) (modelTypeOf kvs) with e | preds
        · have hc := congrArg RunResult.calls (run_predict_error env kvs e hm hl hp)
          rw [hc] at hmem
          simp at hmem
          exact hmem.1
        · cases hti : truthy (includeImportanceOf kvs) with
          | false =>
            have hc := congrArg RunResult.calls
              (run_success_no_imp env kvs preds hm hl hp hti)
            rw [hc] at hmem
            simp at hmem
            exact hmem.1
          | true =>
            rcases hi : env.importanceFn "random_forest" with e | pairs
            · have hc := congrArg RunResult.calls
                (run_importance_error env kvs preds e hm hl hp hti hi)
              rw [hc] at hmem
              simp at hmem
              exact hmem.1
            · have hc := congrArg RunResult.calls
                (run_success_imp env kvs preds pairs hm hl hp hti hi)
              rw [hc] at hmem
              simp at hmem
              exact hmem.1
  · intro k hk kvs
    fin_cases hk <;> rfl

/-- Witness for C3 amended: request with only `ph` present forwards `ph`
unchanged and zeros for the six absent keys. -/
theorem features_default_zero_only_when_absent_witness :
    Call.predict
        [("N", Json.num 0), ("P", Json.num 0), ("K", Json.num 0),
          ("temperature", Json.num 0), ("humidity", Json.num 0), ("ph", Json.num 7),
          ("rainfall", Json.num 0)] (Json.str "ensemble")
      ∈ (run envOk (Except.ok (Json.obj [("ph", Json.num 7)]))).calls ∧
    [("N", Json.num 0), ("P", Json.num 0), ("K", Json.num 0),
      ("temperature", Json.num 0), ("humidity", Json.num 0), ("ph", Json.num 7),
      ("rainfall", Json.num 0)] = featuresOf [("ph", Json.num 7)] := by
  have hmem : Call.predict
      [("N", Json.num 0), ("P", Json.num 0), ("K", Json.num 0),
        ("temperature", Json.num 0), ("humidity", Json.num 0), ("ph", Json.num 7),
        ("rainfall", Json.num 0)] (Json.str "ensemble")
      ∈ (run envOk (Except.ok (Json.obj [("ph", Json.num 7)]))).calls := by
    have hc : (run envOk (Except.ok (Json.obj [("ph", Json.num 7)]))).calls =
        [Call.load (modelPath envOk),
          Call.predict
            [("N", Json.num 0), ("P", Json.num 0), ("K", Json.num 0),
              ("temperature", Json.num 0), ("humidity", Json.num 0), ("ph", Json.num 7),
              ("rainfall", Json.num 0)] (Json.str "ensemble")] := rfl
    rw [hc]
    simp
  exact ⟨hmem,
    features_default_zero_only_when_absent.1 envOk [("ph", Json.num 7)] _
      (Json.str "ensemble") hmem⟩

/-- Counterexample to claim C4 as stated: `include_importance` bound to the
number 1 — truthy but not the boolean `true` — still yields a success
response whose `feature_importance` is non-null. -/
theorem truthy_nonboolean_triggers_importance :
    (Json.obj [("include_importance", Json.num 1)]).getField "include_importance" =
      some (Json.num 1) ∧
    Json.num 1 ≠ Json.bool true ∧
    (run envOk (Except.ok (Json.obj [("include_importance", Json.num 1)]))).output =
      [successDoc [Json.str "rice"] (some [])] ∧
    (successDoc [Json.str "rice"] (some [])).getField "feature_importance" =
      some (Json.arr []) ∧
    Json.arr [] ≠ Json.null := by
  refine ⟨rfl, fun h => Json.noConfusion h, ?_, rfl, fun h => Json.noConfusion h⟩
  rfl

/-- Claim C4 amended: in a success response, `feature_importance` is non-null
exactly when the `include_importance` value of the request is truthy in the Python
sense (not only for the boolean `true`); when falsy it is `null`. -/
theorem importance_iff_truthy_flag (env : Env) (kvs : List (String × Json))
    (doc : Json)
    (hmem : doc ∈ (run env (Except.ok (Json.obj kvs))).output)
    (hsucc : doc.getField "success" = some (Json.bool true)) :
    (truthy (includeImportanceOf kvs) = true →
      ∃ pairs, doc.getField "feature_importance" = some (importanceJson pairs) ∧
        importanceJson pairs ≠ Json.null) ∧
    (truthy (includeImportanceOf kvs) = false →
      doc.getField "feature_importance" = some Json.null) := by
  obtain ⟨kvs0, preds, imp, hs, hdoc, hcase⟩ :=
    mem_output_success env (Except.ok (Json.obj kvs)) doc hmem hsucc
  have hk : kvs0 = kvs := by
    injection hs with h
    injection h with h2
    exact h2.symm
  subst hk
  subst hdoc
  rcases hcase with ⟨himp, hti⟩ | ⟨pairs, himp, hti⟩
  · subst himp
    exact ⟨fun h => absurd (h.symm.trans hti) (by simp),
      fun _ => successDoc_importance preds none⟩
  · subst himp
    exact ⟨fun _ => ⟨pairs, successDoc_importance preds (some pairs),
        fun h => Json.noConfusion h⟩,
      fun h => absurd (h.symm.trans hti) (by simp)⟩

/-- Witness for C4 amended at a boolean-true request in the healthy
environment. -/
theorem importance_iff_truthy_flag_witness :
    successDoc [Json.str "rice"] (some []) ∈
      (run envOk (Except.ok (Json.obj [("include_importance", Json.bool true)]))).output ∧
    (successDoc [Json.str "rice"] (some [])).getField "success" =
      some (Json.bool true) ∧
    (truthy (includeImportanceOf [("include_importance", Json.bool true)]) = true →
      ∃ pairs,
        (successDoc [Json.str "rice"] (some [])).getField "feature_importance" =
          some (importanceJson pairs) ∧
        importanceJson pairs ≠ Json.null) := by
  have hmem : successDoc [Json.str "rice"] (some []) ∈
      (run envOk (Except.ok (Json.obj [("include_importance", Json.bool true)]))).output := by
    have hc : (run envOk
        (Except.ok (Json.obj [("include_importance", Json.bool true)]))).output =
        [successDoc [Json.str "rice"] (some [])] := rfl
    rw [hc]
    simp
  exact ⟨hmem, rfl,
    (importance_iff_truthy_flag envOk [("include_importance", Json.bool true)]
      (successDoc [Json.str "rice"] (some [])) hmem rfl).1⟩

end ApiBridge
